import Mathlib

/-!
Shallow embedding of the request middleware pipeline and the
session / rate-limit / credential state machines of the auth service
(`src/auth-service/main.go`).

Time is a natural-number clock (seconds); the Redis-backed stores are
association lists with absolute expiry timestamps; the Postgres users
table is an association list of `(email, password_hash)` pairs with the
uniqueness constraint enforced on insert.  Each Go handler or middleware
becomes a function `Request → St → Response × St × List Event`: the events
record the observable side channel (structured log lines, store calls,
the slow bcrypt invocations, and the unchecked-type-assertion panic of
`meHandler`), so that temporal and timing claims become statements about
the emitted trace.
-/

namespace AuthService

/-- One observable step of a request's processing, used to state
ordering, logging and timing-class properties of the pipeline. -/
inductive Event where
  /-- the rate limiter's `rdb.Incr` call on the per-client counter -/
  | incrCounter
  /-- the `rate limit redis error` log emitted when the limiter fails open -/
  | degradedLog
  /-- the limiter's own `RATE LIMITED` log line, emitted with the 429 -/
  | rateLimitedLog
  /-- the structured per-request log line of `loggingMiddleware`,
      carrying the final response status -/
  | logLine (status : Nat)
  /-- `authMiddleware` reading the `session_id` cookie -/
  | cookieExtract
  /-- `authMiddleware` looking the token up in the session store -/
  | sessionLookup
  /-- one invocation of the slow bcrypt hash (generate or compare) -/
  | slowHash
  /-- the panic of `meHandler`'s unchecked type assertion -/
  | panicked
  deriving DecidableEq, BEq

/-- Parsed JSON body `{email, password}` of /register and /login. -/
structure Creds where
  email : String
  password : String
  deriving DecidableEq

/-- An inbound HTTP request, restricted to the fields the core reads:
the remote socket address, the `session_id` cookie value if present,
the decoded JSON body (`none` = malformed body), and the request-scoped
context value set by `authMiddleware` (`userEmail`). -/
structure Request where
  remoteAddr : String
  cookie : Option String
  body : Option Creds
  ctxUserEmail : Option String
  deriving DecidableEq

/-- The `session_id` HTTP cookie as set by `loginHandler`. -/
structure Cookie where
  name : String
  value : String
  path : String
  httpOnly : Bool
  secure : Bool
  sameSiteLax : Bool
  deriving DecidableEq

/-- An HTTP response: status, body, and the Set-Cookie header if any. -/
structure Response where
  status : Nat
  body : String
  cookie : Option Cookie
  deriving DecidableEq

/-- `http.Error` / plain writes: a response with no cookie. -/
def mkResp (status : Nat) (body : String) : Response :=
  { status := status, body := body, cookie := none }

/-- The Postgres `users` table (email, password_hash) plus a
reachability flag modelling connection failures / elapsed deadlines. -/
structure DBState where
  users : List (String × String)
  up : Bool
  deriving DecidableEq

/-- The Redis instance: rate counters `rate_limit:<addr>` (count and
optional absolute expiry), sessions `session:<token>` (email and
absolute expiry), plus a reachability flag. -/
structure RedisState where
  counters : List (String × Nat × Option Nat)
  sessions : List (String × String × Nat)
  up : Bool
  deriving DecidableEq

/-- Whole-world state: the clock, the uuid source, and the two stores. -/
structure St where
  now : Nat
  rng : Nat
  db : DBState
  redis : RedisState
  deriving DecidableEq

/-- A handler (or middleware output): consumes the request and the
world, produces the response, the new world and the event trace. -/
def Handler : Type := Request → St → Response × St × List Event

/-- Association-list lookup for rate counters. -/
def lookupCounter : List (String × Nat × Option Nat) → String → Option (Nat × Option Nat)
  | [], _ => none
  | (k', c, e) :: rest, k => if k' == k then some (c, e) else lookupCounter rest k

/-- Overwrite (or create) the counter entry for a key. -/
def setCounter (l : List (String × Nat × Option Nat)) (k : String) (c : Nat)
    (e : Option Nat) : List (String × Nat × Option Nat) :=
  (k, c, e) :: l.filter (fun p => !(p.1 == k))

/-- Redis liveness of an entry with optional absolute expiry `e` at
time `now`: entries with a TTL die exactly when `now` reaches it. -/
def liveAt (now : Nat) (e : Option Nat) : Bool :=
  match e with
  | none => true
  | some t => now < t

/-- `rdb.Incr`: atomically increment the counter, treating an absent or
expired key as fresh (new value 1, no TTL); errors iff Redis is down. -/
def redisIncr (now : Nat) (st : RedisState) (k : String) :
    Except Unit (Nat × RedisState) :=
  if st.up then
    match lookupCounter st.counters k with
    | some (c, e) =>
        if liveAt now e then
          .ok (c + 1, { st with counters := setCounter st.counters k (c + 1) e })
        else
          .ok (1, { st with counters := setCounter st.counters k 1 none })
    | none => .ok (1, { st with counters := setCounter st.counters k 1 none })
  else .error ()

/-- `rdb.Expire`: attach an absolute expiry `now + secs` to a live
counter entry; no-op on absent or already-expired keys. -/
def redisExpire (now : Nat) (st : RedisState) (k : String) (secs : Nat) : RedisState :=
  match lookupCounter st.counters k with
  | some (c, e) =>
      if liveAt now e then
        { st with counters := setCounter st.counters k c (some (now + secs)) }
      else st
  | none => st

/-- Association-list lookup for sessions. -/
def lookupSession : List (String × String × Nat) → String → Option (String × Nat)
  | [], _ => none
  | (k', v, e) :: rest, k => if k' == k then some (v, e) else lookupSession rest k

/-- `rdb.Set` with TTL: store `k → v` expiring at `now + ttl`;
errors iff Redis is down (a failed write leaves the store unchanged). -/
def redisSet (now : Nat) (st : RedisState) (k v : String) (ttl : Nat) :
    Except Unit RedisState :=
  if st.up then
    .ok { st with sessions := (k, v, now + ttl) :: st.sessions.filter (fun p => !(p.1 == k)) }
  else .error ()

/-- `rdb.Get`: read a live session value; errors on a down store, an
absent key, or an expired key (redis.Nil and transport errors are not
distinguished by the Go code, which only tests `err != nil`). -/
def redisGet (now : Nat) (st : RedisState) (k : String) : Except Unit String :=
  if st.up then
    match lookupSession st.sessions k with
    | some (v, e) => if now < e then .ok v else .error ()
    | none => .error ()
  else .error ()

/-- `db.Exec("INSERT INTO users ...")`: errors when the store is down
or the unique-email constraint is violated — the Go code does not
distinguish the two causes. -/
def dbInsertUser (s : DBState) (email hash : String) : Except Unit DBState :=
  if s.up then
    if s.users.any (fun u => u.1 == email) then .error ()
    else .ok { s with users := (email, hash) :: s.users }
  else .error ()

/-- `db.QueryRow("SELECT password_hash ...").Scan`: errors when the
store is down or no row matches (sql.ErrNoRows); the Go code only
tests `err != nil`, so the causes are not distinguished. -/
def dbQueryHash (s : DBState) (email : String) : Except Unit String :=
  if s.up then
    match s.users.find? (fun u => u.1 == email) with
    | some u => .ok u.2
    | none => .error ()
  else .error ()

/-- `bcrypt.GenerateFromPassword` at DefaultCost, modelled as a
deterministic injective digest (salting is irrelevant to the claims). -/
def bcryptGenerate (password : String) : String :=
  "bcrypt$" ++ password

/-- `bcrypt.CompareHashAndPassword`: true iff the digest matches. -/
def bcryptCompare (hash password : String) : Bool :=
  hash == bcryptGenerate password

/-- `uuid.New().String()`: the n-th fresh opaque token. -/
def uuidNew (n : Nat) : String :=
  "uuid-" ++ toString n

/-- The limiter's counter key for a request: `rate_limit:` + RemoteAddr. -/
def rateKey (r : Request) : String :=
  "rate_limit:" ++ r.remoteAddr

/-- `loggingMiddleware`: run the downstream handler, then emit one
structured log line carrying the final status (the wrapped
responseWriter defaults to 200 and records the last explicit status). -/
def loggingMiddleware (next : Handler) : Handler := fun r s =>
  let out := next r s
  (out.1, out.2.1, out.2.2 ++ [Event.logLine out.1.status])

/-- `rateLimitMiddleware`: Incr the per-client counter; on a Redis
error fail open (forward and log the degradation); set the 60 s window
expiry on the first hit; reject with 429 above 10; otherwise forward. -/
def rateLimitMiddleware (next : Handler) : Handler := fun r s =>
  match redisIncr s.now s.redis (rateKey r) with
  | .error _ =>
      let out := next r s
      (out.1, out.2.1, Event.incrCounter :: Event.degradedLog :: out.2.2)
  | .ok (count, rds) =>
      let rds2 := if count = 1 then redisExpire s.now rds (rateKey r) 60 else rds
      let s1 := { s with redis := rds2 }
      if count > 10 then
        (mkResp 429 "Too Many Requests", s1, [Event.incrCounter, Event.rateLimitedLog])
      else
        let out := next r s1
        (out.1, out.2.1, Event.incrCounter :: out.2.2)

/-- `authMiddleware`: extract the `session_id` cookie (401 Unauthorized
if absent), resolve the token in the session store (401 Session expired
or invalid on any Get error), then run the downstream handler with the
resolved email in the request context. -/
def authMiddleware (next : Handler) : Handler := fun r s =>
  match r.cookie with
  | none => (mkResp 401 "Unauthorized", s, [Event.cookieExtract])
  | some tok =>
      match redisGet s.now s.redis ("session:" ++ tok) with
      | .error _ =>
          (mkResp 401 "Session expired or invalid", s,
           [Event.cookieExtract, Event.sessionLookup])
      | .ok email =>
          let out := next { r with ctxUserEmail := some email } s
          (out.1, out.2.1, Event.cookieExtract :: Event.sessionLookup :: out.2.2)

/-- `healthHandler`: always 200, reporting each component's status. -/
def healthHandler : Handler := fun _ s =>
  (mkResp 200 ("service=up database=" ++ (if s.db.up then "up" else "down")
      ++ " redis=" ++ (if s.redis.up then "up" else "down")), s, [])

/-- `registerHandler`: 400 on malformed body; bcrypt-hash the password
(one slow-hash invocation); insert the credential, mapping any insert
error to 409 "User already exists"; 201 on success.  There is no
emptiness validation of the fields. -/
def registerHandler : Handler := fun r s =>
  match r.body with
  | none => (mkResp 400 "Invalid request", s, [])
  | some req =>
      let hash := bcryptGenerate req.password
      match dbInsertUser s.db req.email hash with
      | .error _ => (mkResp 409 "User already exists", s, [Event.slowHash])
      | .ok db' =>
          (mkResp 201 "User registered", { s with db := db' }, [Event.slowHash])

/-- `loginHandler`: 400 on malformed body; look up the stored hash,
mapping any query error (no row or store down) to 401; bcrypt-compare
(one slow-hash invocation) and 401 on mismatch; mint a uuid session id,
write `session:<id> → email` with a 24 h TTL (500 on write error), and
set the session cookie. -/
def loginHandler : Handler := fun r s =>
  match r.body with
  | none => (mkResp 400 "Invalid request", s, [])
  | some req =>
      match dbQueryHash s.db req.email with
      | .error _ => (mkResp 401 "Invalid credentials", s, [])
      | .ok storedHash =>
          if bcryptCompare storedHash req.password then
            let sessionID := uuidNew s.rng
            let s1 := { s with rng := s.rng + 1 }
            match redisSet s1.now s1.redis ("session:" ++ sessionID) req.email 86400 with
            | .error _ => (mkResp 500 "Session error", s1, [Event.slowHash])
            | .ok rds' =>
                ({ status := 200, body := "Logged in",
                   cookie := some { name := "session_id", value := sessionID,
                                    path := "/", httpOnly := true, secure := false,
                                    sameSiteLax := true } },
                 { s1 with redis := rds' }, [Event.slowHash])
          else (mkResp 401 "Invalid credentials", s, [Event.slowHash])

/-- `meHandler`: the unchecked type assertion on the context value —
panics (modelled as the `panicked` event) when `userEmail` is absent. -/
def meHandler : Handler := fun r s =>
  match r.ctxUserEmail with
  | some email => (mkResp 200 ("Hello " ++ email), s, [])
  | none => (mkResp 200 "", s, [Event.panicked])

/-- The /health route as wired in `main`. -/
def healthPipeline : Handler :=
  rateLimitMiddleware (loggingMiddleware healthHandler)

/-- The /register route as wired in `main`. -/
def registerPipeline : Handler :=
  rateLimitMiddleware (loggingMiddleware registerHandler)

/-- The /login route as wired in `main`. -/
def loginPipeline : Handler :=
  rateLimitMiddleware (loggingMiddleware loginHandler)

/-- The /me route as wired in `main`: note `authMiddleware` is the
outermost layer there. -/
def mePipeline : Handler :=
  authMiddleware (rateLimitMiddleware (loggingMiddleware meHandler))

/-- Run one pipeline over a list of request times (the clock is set
externally before each request), collecting the response statuses. -/
def runStatuses (p : Handler) (r : Request) : List Nat → St → List Nat × St
  | [], s => ([], s)
  | t :: ts, s =>
      let out := p r { s with now := t }
      let rest := runStatuses p r ts out.2.1
      (out.1.status :: rest.1, rest.2)

/-- Positional access into a status list. -/
def nthStatus : List Nat → Nat → Option Nat
  | [], _ => none
  | x :: _, 0 => some x
  | _ :: xs, i + 1 => nthStatus xs i

/-- Whether the per-client counter holds no live entry at `now`
(absent, or present but expired). -/
def counterFreshB (now : Nat) (l : List (String × Nat × Option Nat)) (k : String) : Bool :=
  match lookupCounter l k with
  | none => true
  | some (_, e) => !(liveAt now e)

/-- Number of slow bcrypt invocations in a trace — the timing class of
a request with respect to the deliberately expensive hash. -/
def slowHashCount : List Event → Nat
  | [] => 0
  | Event.slowHash :: rest => slowHashCount rest + 1
  | _ :: rest => slowHashCount rest

/-- Whether a trace records the `meHandler` type-assertion panic. -/
def hasPanic : List Event → Bool
  | [] => false
  | Event.panicked :: _ => true
  | _ :: rest => hasPanic rest

/-- A downstream handler that does not touch the rate counters or the
Redis reachability flag and never itself answers 429.  All four
endpoint handlers of the service satisfy this. -/
def GoodHandler (h : Handler) : Prop :=
  ∀ r s, ((h r s).2.1.redis.counters = s.redis.counters)
    ∧ ((h r s).2.1.redis.up = s.redis.up)
    ∧ ((h r s).1.status ≠ 429)

/-! Concrete fixtures used by counterexamples and witnesses. -/

/-- A backing-store world with both stores up and empty, clock at 0. -/
def st0 : St :=
  { now := 0, rng := 0, db := { users := [], up := true },
    redis := { counters := [], sessions := [], up := true } }

/-- A /me request carrying a session cookie for token `tok`. -/
def reqC1 : Request :=
  { remoteAddr := "10.0.0.1:7777", cookie := some "tok", body := none,
    ctxUserEmail := none }

/-- A world holding a live session for token `tok`. -/
def stC1 : St :=
  { st0 with redis := { counters := [], sessions := [("session:tok", "a@x.com", 100)], up := true } }

/-- A /register request from a client that is about to exceed quota. -/
def reqC2 : Request :=
  { remoteAddr := "10.0.0.2:7777", cookie := none,
    body := some { email := "a@x.com", password := "pw1" }, ctxUserEmail := none }

/-- A world where that client's counter already reads 10 in a live window. -/
def stC2 : St :=
  { st0 with now := 5, redis := { counters := [("rate_limit:10.0.0.2:7777", 10, some 60)], sessions := [], up := true } }

/-- A /register request whose decoded body has empty email and password. -/
def reqC3 : Request :=
  { remoteAddr := "10.0.0.3:1", cookie := none,
    body := some { email := "", password := "" }, ctxUserEmail := none }

/-- A request whose body failed to decode. -/
def reqC3m : Request :=
  { remoteAddr := "10.0.0.3:1", cookie := none, body := none, ctxUserEmail := none }

/-- A login request with the correct credentials of the stored account. -/
def reqC4 : Request :=
  { remoteAddr := "10.0.0.4:1", cookie := none,
    body := some { email := "a@x.com", password := "pw1" }, ctxUserEmail := none }

/-- A register request for an email nobody has registered. -/
def reqC4b : Request :=
  { remoteAddr := "10.0.0.4:1", cookie := none,
    body := some { email := "b@x.com", password := "pw2" }, ctxUserEmail := none }

/-- A world where the credential store is unreachable but holds
`a@x.com` with the digest of `pw1`. -/
def stC4 : St :=
  { st0 with db := { users := [("a@x.com", bcryptGenerate "pw1")], up := false } }

/-- A generic request used to drive the rate limiter. -/
def reqC5 : Request :=
  { remoteAddr := "10.0.0.5:1", cookie := none, body := none, ctxUserEmail := none }

/-- A request hitting a world whose Redis is down. -/
def reqC6 : Request :=
  { remoteAddr := "10.0.0.6:1", cookie := none, body := none, ctxUserEmail := none }

/-- A world with the fast store unreachable. -/
def stC6 : St :=
  { st0 with redis := { counters := [], sessions := [], up := false } }

/-- A world storing exactly the account `a@x.com` / `pw1`. -/
def stC7 : St :=
  { st0 with db := { users := [("a@x.com", bcryptGenerate "pw1")], up := true } }

/-- Login attempt with an email absent from the store. -/
def reqC7u : Request :=
  { remoteAddr := "10.0.0.7:1", cookie := none,
    body := some { email := "b@x.com", password := "pw1" }, ctxUserEmail := none }

/-- Login attempt with a stored email but the wrong password. -/
def reqC7w : Request :=
  { remoteAddr := "10.0.0.7:1", cookie := none,
    body := some { email := "a@x.com", password := "wrong" }, ctxUserEmail := none }

/-- A correct-credentials login request for the roundtrip witness. -/
def reqC8 : Request :=
  { remoteAddr := "10.0.0.8:1", cookie := none,
    body := some { email := "a@x.com", password := "pw1" }, ctxUserEmail := none }

/-- The follow-up /me request presenting the freshly minted cookie. -/
def reqC8me : Request :=
  { remoteAddr := "10.0.0.8:2", cookie := some (uuidNew 0), body := none,
    ctxUserEmail := none }

/-- The world of the roundtrip witness: the account exists, stores up. -/
def stC8 : St :=
  { st0 with db := { users := [("a@x.com", bcryptGenerate "pw1")], up := true } }

/-- A malformed-body login request for the atomicity witness. -/
def reqC10 : Request :=
  { remoteAddr := "10.0.0.10:1", cookie := none, body := none, ctxUserEmail := none }

theorem healthHandler_good : GoodHandler healthHandler := by
  intro r s
  refine ⟨rfl, rfl, ?_⟩
  simp [healthHandler, mkResp]

theorem meHandler_good : GoodHandler meHandler := by
  intro r s
  match h : r.ctxUserEmail with
  | some e => refine ⟨?_, ?_, ?_⟩ <;> simp [meHandler, h, mkResp]
  | none => refine ⟨?_, ?_, ?_⟩ <;> simp [meHandler, h, mkResp]

theorem registerHandler_good : GoodHandler registerHandler := by
  intro r s
  match hb : r.body with
  | none => refine ⟨?_, ?_, ?_⟩ <;> simp [registerHandler, hb, mkResp]
  | some req =>
      match hi : dbInsertUser s.db req.email (bcryptGenerate req.password) with
      | .error _ => refine ⟨?_, ?_, ?_⟩ <;> simp [registerHandler, hb, hi, mkResp]
      | .ok db' => refine ⟨?_, ?_, ?_⟩ <;> simp [registerHandler, hb, hi, mkResp]

theorem loginHandler_good : GoodHandler loginHandler := by
  intro r s
  match hb : r.body with
  | none => refine ⟨?_, ?_, ?_⟩ <;> simp [loginHandler, hb, mkResp]
  | some req =>
      match hq : dbQueryHash s.db req.email with
      | .error _ => refine ⟨?_, ?_, ?_⟩ <;> simp [loginHandler, hb, hq, mkResp]
      | .ok storedHash =>
          by_cases hc : bcryptCompare storedHash req.password
          · match hw : redisSet s.now s.redis ("session:" ++ uuidNew s.rng) req.email 86400 with
            | .error _ =>
                refine ⟨?_, ?_, ?_⟩ <;> simp [loginHandler, hb, hq, hc, hw, mkResp]
            | .ok rds' =>
                have hcnt : rds'.counters = s.redis.counters := by
                  simp only [redisSet] at hw
                  by_cases hu : s.redis.up <;> simp [hu] at hw
                  rw [← hw]
                have hup : rds'.up = s.redis.up := by
                  simp only [redisSet] at hw
                  by_cases hu : s.redis.up <;> simp [hu] at hw
                  rw [← hw, hu]
                refine ⟨?_, ?_, ?_⟩ <;> simp [loginHandler, hb, hq, hc, hw, mkResp, hcnt, hup]
          · refine ⟨?_, ?_, ?_⟩ <;> simp [loginHandler, hb, hq, hc, mkResp]

/-! Helper lemmas about the counter store and the rate limiter. -/

theorem lookup_setCounter_self (l : List (String × Nat × Option Nat)) (k : String)
    (c : Nat) (e : Option Nat) : lookupCounter (setCounter l k c e) k = some (c, e) := by
  simp [setCounter, lookupCounter]

theorem redisIncr_fresh (now : Nat) (st : RedisState) (k : String)
    (hup : st.up = true) (hfresh : counterFreshB now st.counters k = true) :
    redisIncr now st k = .ok (1, { st with counters := setCounter st.counters k 1 none }) := by
  unfold counterFreshB at hfresh
  rcases hlk : lookupCounter st.counters k with _ | ⟨c, e⟩
  · simp [redisIncr, hup, hlk]
  · rw [hlk] at hfresh
    simp at hfresh
    simp [redisIncr, hup, hlk, hfresh]

theorem redisIncr_live (now : Nat) (st : RedisState) (k : String) (c : Nat) (e : Option Nat)
    (hup : st.up = true) (hlk : lookupCounter st.counters k = some (c, e))
    (hlive : liveAt now e = true) :
    redisIncr now st k
      = .ok (c + 1, { st with counters := setCounter st.counters k (c + 1) e }) := by
  simp [redisIncr, hup, hlk, hlive]

theorem redisExpire_after_fresh (now : Nat) (st : RedisState) (k : String) :
    redisExpire now { st with counters := setCounter st.counters k 1 none } k 60
      = { st with counters :=
            setCounter (setCounter st.counters k 1 none) k 1 (some (now + 60)) } := by
  simp [redisExpire, lookup_setCounter_self, liveAt]

theorem rateLimit_first (next : Handler) (r : Request) (s : St) (rds : RedisState)
    (hi : redisIncr s.now s.redis (rateKey r) = .ok (1, rds)) :
    rateLimitMiddleware next r s
      = ((next r { s with redis := redisExpire s.now rds (rateKey r) 60 }).1,
         (next r { s with redis := redisExpire s.now rds (rateKey r) 60 }).2.1,
         Event.incrCounter ::
           (next r { s with redis := redisExpire s.now rds (rateKey r) 60 }).2.2) := by
  simp [rateLimitMiddleware, hi]

theorem rateLimit_forward (next : Handler) (r : Request) (s : St) (count : Nat)
    (rds : RedisState) (hi : redisIncr s.now s.redis (rateKey r) = .ok (count, rds))
    (hle : count ≤ 10) (hne1 : count ≠ 1) :
    rateLimitMiddleware next r s
      = ((next r { s with redis := rds }).1, (next r { s with redis := rds }).2.1,
         Event.incrCounter :: (next r { s with redis := rds }).2.2) := by
  simp [rateLimitMiddleware, hi, hne1, Nat.not_lt.mpr hle]

theorem rateLimit_reject (next : Handler) (r : Request) (s : St) (count : Nat)
    (rds : RedisState) (hi : redisIncr s.now s.redis (rateKey r) = .ok (count, rds))
    (hgt : 10 < count) :
    rateLimitMiddleware next r s
      = (mkResp 429 "Too Many Requests", { s with redis := rds },
         [Event.incrCounter, Event.rateLimitedLog]) := by
  have hne1 : count ≠ 1 := by omega
  simp [rateLimitMiddleware, hi, hne1, hgt]

theorem rate_step_fresh (h : Handler) (hg : GoodHandler h) (r : Request) (s : St)
    (hup : s.redis.up = true)
    (hfresh : counterFreshB s.now s.redis.counters (rateKey r) = true) :
    (rateLimitMiddleware (loggingMiddleware h) r s).1.status ≠ 429
    ∧ lookupCounter ((rateLimitMiddleware (loggingMiddleware h) r s).2.1.redis.counters)
        (rateKey r) = some (1, some (s.now + 60))
    ∧ (rateLimitMiddleware (loggingMiddleware h) r s).2.1.redis.up = true := by
  have hi := redisIncr_fresh s.now s.redis (rateKey r) hup hfresh
  rw [rateLimit_first (loggingMiddleware h) r s _ hi, redisExpire_after_fresh]
  obtain ⟨hgc, hgu, hgs⟩ := hg r { s with redis := { s.redis with counters := setCounter (setCounter s.redis.counters (rateKey r) 1 none) (rateKey r) 1 (some (s.now + 60)) } }
  simp only [hup] at hgc hgu hgs
  refine ⟨?_, ?_, ?_⟩ <;>
    simp [loggingMiddleware, hgc, hgu, hgs, lookup_setCounter_self, hup]

theorem rate_step_live (h : Handler) (hg : GoodHandler h) (r : Request) (s : St)
    (c e : Nat) (hup : s.redis.up = true)
    (hlk : lookupCounter s.redis.counters (rateKey r) = some (c, some e))
    (hlive : s.now < e) (hc1 : 1 ≤ c) :
    ((rateLimitMiddleware (loggingMiddleware h) r s).1.status = 429 ↔ 10 < c + 1)
    ∧ lookupCounter ((rateLimitMiddleware (loggingMiddleware h) r s).2.1.redis.counters)
        (rateKey r) = some (c + 1, some e)
    ∧ (rateLimitMiddleware (loggingMiddleware h) r s).2.1.redis.up = true := by
  have hi := redisIncr_live s.now s.redis (rateKey r) c (some e) hup hlk
    (by simp [liveAt, hlive])
  by_cases h10 : 10 < c + 1
  · rw [rateLimit_reject (loggingMiddleware h) r s (c + 1) _ hi h10]
    refine ⟨?_, ?_, ?_⟩ <;> simp [mkResp, h10, lookup_setCounter_self, hup]
  · have hne1 : c + 1 ≠ 1 := by omega
    rw [rateLimit_forward (loggingMiddleware h) r s (c + 1) _ hi (by omega) hne1]
    obtain ⟨hgc, hgu, hgs⟩ := hg r { s with redis := { s.redis with counters := setCounter s.redis.counters (rateKey r) (c + 1) (some e) } }
    simp only [hup] at hgc hgu hgs
    refine ⟨?_, ?_, ?_⟩ <;>
      simp [loggingMiddleware, hgc, hgu, hgs, lookup_setCounter_self, hup, h10]

theorem runStatuses_live (h : Handler) (hg : GoodHandler h) (r : Request) :
    ∀ (ts : List Nat) (s : St) (c e : Nat),
      s.redis.up = true →
      lookupCounter s.redis.counters (rateKey r) = some (c, some e) →
      1 ≤ c →
      (∀ t ∈ ts, t < e) →
      (∀ i, (nthStatus (runStatuses (rateLimitMiddleware (loggingMiddleware h)) r ts s).1 i
              = some 429 ↔ (i < ts.length ∧ 10 < c + i + 1)))
      ∧ lookupCounter
          (runStatuses (rateLimitMiddleware (loggingMiddleware h)) r ts s).2.redis.counters
          (rateKey r) = some (c + ts.length, some e)
      ∧ (runStatuses (rateLimitMiddleware (loggingMiddleware h)) r ts s).2.redis.up = true
  | [], s, c, e, hup, hlk, hc1, _ => by
      refine ⟨?_, ?_, ?_⟩
      · intro i; simp [runStatuses, nthStatus]
      · simpa [runStatuses] using hlk
      · simpa [runStatuses] using hup
  | t :: ts, s, c, e, hup, hlk, hc1, hts => by
      have hstep := rate_step_live h hg r { s with now := t } c e hup hlk
        (hts t (List.mem_cons_self t ts)) hc1
      obtain ⟨hiff, hlk2, hup2⟩ := hstep
      have ih := runStatuses_live h hg r ts
        (rateLimitMiddleware (loggingMiddleware h) r { s with now := t }).2.1 (c + 1) e
        hup2 hlk2 (by omega) (fun u hu => hts u (List.mem_cons_of_mem t hu))
      obtain ⟨ihiff, ihlk, ihup⟩ := ih
      refine ⟨?_, ?_, ?_⟩
      · intro i
        match i with
        | 0 =>
            simp only [runStatuses, nthStatus, Option.some.injEq, List.length_cons]
            rw [hiff]
            omega
        | i + 1 =>
            simp only [runStatuses, nthStatus, List.length_cons]
            rw [ihiff i]
            omega
      · have harith : c + 1 + ts.length = c + (ts.length + 1) := by omega
        simp only [runStatuses, List.length_cons]
        rw [← harith]
        exact ihlk
      · simpa [runStatuses] using ihup

/-! The claims. -/

/-- C5: for every client, starting from a window with no live counter
entry, each of the first 10 requests (indices 0–9) is not rate-limited,
every request from the 11th on (index ≥ 10) in the same 60-second
window is rejected with 429, the counter entry carries the count of
requests seen and expires one window-length after the first request,
and the next request at or after that expiry starts a fresh window
with count 1 and is forwarded. -/
theorem rate_limit_window (h : Handler) (hg : GoodHandler h) (r : Request) (s0 : St)
    (t1 : Nat) (ts : List Nat) (tNext : Nat)
    (hup : s0.redis.up = true)
    (hfresh : counterFreshB t1 s0.redis.counters (rateKey r) = true)
    (hts : ∀ t ∈ ts, t < t1 + 60)
    (hNext : t1 + 60 ≤ tNext) :
    (∀ i, (nthStatus
        (runStatuses (rateLimitMiddleware (loggingMiddleware h)) r (t1 :: ts) s0).1 i
          = some 429 ↔ (i < ts.length + 1 ∧ 10 ≤ i)))
    ∧ lookupCounter
        (runStatuses (rateLimitMiddleware (loggingMiddleware h)) r (t1 :: ts) s0).2.redis.counters
        (rateKey r) = some (ts.length + 1, some (t1 + 60))
    ∧ (rateLimitMiddleware (loggingMiddleware h) r
        { (runStatuses (rateLimitMiddleware (loggingMiddleware h)) r (t1 :: ts) s0).2 with
          now := tNext }).1.status ≠ 429
    ∧ lookupCounter
        (rateLimitMiddleware (loggingMiddleware h) r
          { (runStatuses (rateLimitMiddleware (loggingMiddleware h)) r (t1 :: ts) s0).2 with
            now := tNext }).2.1.redis.counters (rateKey r)
        = some (1, some (tNext + 60)) := by
  have hup0 : ({ s0 with now := t1 } : St).redis.up = true := hup
  have hfresh0 : counterFreshB ({ s0 with now := t1 } : St).now
      ({ s0 with now := t1 } : St).redis.counters (rateKey r) = true := hfresh
  obtain ⟨hne, hlk1, hup1⟩ := rate_step_fresh h hg r { s0 with now := t1 } hup0 hfresh0
  have hlk1' : lookupCounter
      (rateLimitMiddleware (loggingMiddleware h) r { s0 with now := t1 }).2.1.redis.counters
      (rateKey r) = some (1, some (t1 + 60)) := hlk1
  obtain ⟨miff, mlk, mup⟩ := runStatuses_live h hg r ts
    (rateLimitMiddleware (loggingMiddleware h) r { s0 with now := t1 }).2.1 1 (t1 + 60)
    hup1 hlk1' (Nat.le_refl 1) hts
  have hNoLive : ¬(tNext < t1 + 60) := Nat.not_lt.mpr hNext
  have hfreshN : counterFreshB tNext
      (runStatuses (rateLimitMiddleware (loggingMiddleware h)) r (t1 :: ts) s0).2.redis.counters
      (rateKey r) = true := by
    simp only [runStatuses]
    simp [counterFreshB, mlk, liveAt, hNoLive]
  have hupN : ({ (runStatuses (rateLimitMiddleware (loggingMiddleware h)) r (t1 :: ts) s0).2 with
      now := tNext } : St).redis.up = true := by
    simpa [runStatuses] using mup
  have hfreshN' : counterFreshB
      ({ (runStatuses (rateLimitMiddleware (loggingMiddleware h)) r (t1 :: ts) s0).2 with
        now := tNext } : St).now
      ({ (runStatuses (rateLimitMiddleware (loggingMiddleware h)) r (t1 :: ts) s0).2 with
        now := tNext } : St).redis.counters (rateKey r) = true := hfreshN
  obtain ⟨hne2, hlk2, _⟩ := rate_step_fresh h hg r
    { (runStatuses (rateLimitMiddleware (loggingMiddleware h)) r (t1 :: ts) s0).2 with
      now := tNext } hupN hfreshN'
  refine ⟨?_, ?_, hne2, hlk2⟩
  · intro i
    match i with
    | 0 =>
        simp only [runStatuses, nthStatus, Option.some.injEq]
        constructor
        · intro hzero; exact absurd hzero hne
        · intro hcontra; omega
    | i + 1 =>
        simp only [runStatuses, nthStatus]
        rw [miff i]
        omega
  · have harith : 1 + ts.length = ts.length + 1 := by omega
    simp only [runStatuses]
    rw [← harith]
    exact mlk

/-- C1 (code-bug evidence): on the /me route as wired in `main`,
authentication work runs first.  With a valid session cookie the trace
shows cookie extraction and the session-store lookup strictly before
the rate-limit counter increment; with no cookie the request is
rejected by the AuthGate and the rate limiter never runs at all. -/
theorem me_pipeline_auth_before_rate_limit :
    (mePipeline reqC1 stC1).2.2
      = [Event.cookieExtract, Event.sessionLookup, Event.incrCounter, Event.logLine 200]
    ∧ (mePipeline { reqC1 with cookie := none } stC1).2.2 = [Event.cookieExtract] := by
  constructor <;> rfl

/-- C2 (counterexample): a request the limiter rejects with 429 is not
logged by the RequestLogger — the /register pipeline's trace at a
client whose live counter already reads 10 is exactly the increment
plus the limiter's own RATE LIMITED line, with no structured log line. -/
theorem rate_limited_request_not_logged_cx :
    (registerPipeline reqC2 stC2).1.status = 429
    ∧ (registerPipeline reqC2 stC2).2.2 = [Event.incrCounter, Event.rateLimitedLog] := by
  constructor <;> rfl

/-- C2 (amended): whenever the rate limiter rejects a request with 429
(live counter already at 10 or more), the RequestLogger does not
execute for that request: the emitted trace consists of the counter
increment and the limiter's own RATE LIMITED log only. -/
theorem rate_limited_request_not_logged (h : Handler) (r : Request) (s : St)
    (c : Nat) (e : Option Nat)
    (hup : s.redis.up = true)
    (hlk : lookupCounter s.redis.counters (rateKey r) = some (c, e))
    (hlive : liveAt s.now e = true)
    (hover : 10 ≤ c) :
    (rateLimitMiddleware (loggingMiddleware h) r s).1.status = 429
    ∧ (rateLimitMiddleware (loggingMiddleware h) r s).2.2
        = [Event.incrCounter, Event.rateLimitedLog] := by
  have hi := redisIncr_live s.now s.redis (rateKey r) c e hup hlk hlive
  rw [rateLimit_reject (loggingMiddleware h) r s (c + 1) _ hi (by omega)]
  exact ⟨rfl, rfl⟩

theorem rate_limited_request_not_logged_witness :
    lookupCounter stC2.redis.counters (rateKey reqC2) = some (10, some 60)
    ∧ (rateLimitMiddleware (loggingMiddleware registerHandler) reqC2 stC2).2.2
        = [Event.incrCounter, Event.rateLimitedLog] :=
  ⟨by decide, (rate_limited_request_not_logged registerHandler reqC2 stC2 10 (some 60)
      rfl (by decide) (by decide) (by decide)).2⟩

/-- C3 (counterexample): a /register body with empty email and empty
password is not rejected: the handler answers 201 and persists the
credential (empty email, digest of the empty password). -/
theorem register_empty_fields_accepted_cx :
    (registerHandler reqC3 st0).1.status = 201
    ∧ (registerHandler reqC3 st0).2.1.db.users = [("", bcryptGenerate "")] := by
  constructor <;> rfl

/-- C3 (amended): only a malformed (undecodable) body is rejected with
400, and then nothing is persisted and the world is left untouched;
empty email or password fields pass into hashing and insertion with no
validation. -/
theorem register_malformed_rejected (r : Request) (s : St) (hb : r.body = none) :
    (registerHandler r s).1.status = 400 ∧ (registerHandler r s).2.1 = s := by
  constructor <;> simp [registerHandler, hb, mkResp]

theorem register_malformed_rejected_witness :
    reqC3m.body = none ∧ (registerHandler reqC3m st0).1.status = 400 :=
  ⟨rfl, (register_malformed_rejected reqC3m st0 rfl).1⟩

/-- C4 (counterexample): with the credential store unreachable,
registering a brand-new email is answered 409 "User already exists",
and logging in with the correct credentials of a stored account is
answered 401 "Invalid credentials": store failure is reported with
exactly the statuses the claim reserves for the uniqueness conflict
and for bad credentials. -/
theorem store_failure_reported_as_conflict_cx :
    (registerHandler reqC4b stC4).1.status = 409
    ∧ (registerHandler reqC4b stC4).1.body = "User already exists"
    ∧ (loginHandler reqC4 stC4).1.status = 401
    ∧ (loginHandler reqC4 stC4).1.body = "Invalid credentials" := by
  refine ⟨rfl, rfl, rfl, rfl⟩

/-- C4 (amended): when the credential store is down, register and login
do fail closed — they reject the request and leave all state unchanged
— but the condition is not distinguishable: register reports it as the
409 conflict and login as the 401 invalid-credentials response. -/
theorem store_failure_fail_closed_conflated (r : Request) (s : St) (b : Creds)
    (hb : r.body = some b) (hdown : s.db.up = false) :
    (registerHandler r s).1.status = 409
    ∧ (registerHandler r s).2.1 = s
    ∧ (loginHandler r s).1.status = 401
    ∧ (loginHandler r s).2.1 = s := by
  have hi : dbInsertUser s.db b.email (bcryptGenerate b.password) = .error () := by
    simp [dbInsertUser, hdown]
  have hq : dbQueryHash s.db b.email = .error () := by
    simp [dbQueryHash, hdown]
  refine ⟨?_, ?_, ?_, ?_⟩ <;> simp [registerHandler, loginHandler, hb, hi, hq, mkResp]

theorem store_failure_fail_closed_conflated_witness :
    stC4.db.up = false
    ∧ (registerHandler reqC4b stC4).1.status = 409
    ∧ (loginHandler reqC4 stC4).1.status = 401 :=
  ⟨rfl, (store_failure_fail_closed_conflated reqC4b stC4
      { email := "b@x.com", password := "pw2" } rfl rfl).1,
    (store_failure_fail_closed_conflated reqC4 stC4
      { email := "a@x.com", password := "pw1" } rfl rfl).2.2.1⟩

theorem rate_limit_window_witness :
    counterFreshB 0 st0.redis.counters (rateKey reqC5) = true
    ∧ nthStatus (runStatuses (rateLimitMiddleware (loggingMiddleware healthHandler)) reqC5
        [0, 1, 2, 3, 4, 5, 6, 7, 8, 9, 10] st0).1 10 = some 429
    ∧ lookupCounter
        (rateLimitMiddleware (loggingMiddleware healthHandler) reqC5
          { (runStatuses (rateLimitMiddleware (loggingMiddleware healthHandler)) reqC5
              [0, 1, 2, 3, 4, 5, 6, 7, 8, 9, 10] st0).2 with now := 60 }).2.1.redis.counters
        (rateKey reqC5) = some (1, some 120) := by
  have h := rate_limit_window healthHandler healthHandler_good reqC5 st0 0
    [1, 2, 3, 4, 5, 6, 7, 8, 9, 10] 60 rfl (by decide) (by decide) (by decide)
  exact ⟨by decide, (h.1 10).mpr (by decide), by simpa using h.2.2.2⟩

/-- C6: if the counter-store increment fails (Redis unreachable), the
rate limiter fails open: the request is forwarded to the downstream
handler, the degradation log is emitted, the response is the handler's
own, and it is never a 429. -/
theorem rate_limiter_fails_open (h : Handler) (hg : GoodHandler h) (r : Request) (s : St)
    (hdown : s.redis.up = false) :
    (rateLimitMiddleware (loggingMiddleware h) r s).1 = (loggingMiddleware h r s).1
    ∧ (rateLimitMiddleware (loggingMiddleware h) r s).1.status ≠ 429
    ∧ (rateLimitMiddleware (loggingMiddleware h) r s).2.2
        = Event.incrCounter :: Event.degradedLog :: (loggingMiddleware h r s).2.2 := by
  have hi : redisIncr s.now s.redis (rateKey r) = .error () := by
    simp [redisIncr, hdown]
  have hst := (hg r s).2.2
  refine ⟨?_, ?_, ?_⟩ <;> simp [rateLimitMiddleware, loggingMiddleware, hi, hst]

theorem rate_limiter_fails_open_witness :
    stC6.redis.up = false
    ∧ (rateLimitMiddleware (loggingMiddleware healthHandler) reqC6 stC6).1.status = 200
    ∧ (rateLimitMiddleware (loggingMiddleware healthHandler) reqC6 stC6).2.2
        = Event.incrCounter :: Event.degradedLog
            :: (loggingMiddleware healthHandler reqC6 stC6).2.2 := by
  have h := rate_limiter_fails_open healthHandler healthHandler_good reqC6 stC6 rfl
  exact ⟨rfl, by decide, h.2.2⟩

/-- C7 (counterexample): login with an unknown email and login with a
stored email but wrong password both answer 401 with byte-identical
bodies, but their timing classes differ: the unknown-email path runs
the slow hash zero times, the wrong-password path runs it once — a
measurable email-enumeration timing discontinuity. -/
theorem login_timing_class_differs_cx :
    (loginHandler reqC7u stC7).1.status = 401
    ∧ (loginHandler reqC7w stC7).1.status = 401
    ∧ (loginHandler reqC7u stC7).1.body = (loginHandler reqC7w stC7).1.body
    ∧ slowHashCount (loginHandler reqC7u stC7).2.2 = 0
    ∧ slowHashCount (loginHandler reqC7w stC7).2.2 = 1 := by
  refine ⟨rfl, rfl, rfl, rfl, rfl⟩

/-- C7 (amended): for every absent-email login and every stored-email
wrong-password login, both responses are 401 and the status and body
are identical, but the timing classes are observably different: the
absent-email path performs no slow-hash comparison while the
wrong-password path performs exactly one. -/
theorem login_401_uniform_shape (s : St) (r1 r2 : Request) (b1 b2 : Creds) (hsh : String)
    (hup : s.db.up = true)
    (h1 : r1.body = some b1)
    (habsent : s.db.users.find? (fun u => u.1 == b1.email) = none)
    (h2 : r2.body = some b2)
    (hfound : s.db.users.find? (fun u => u.1 == b2.email) = some (b2.email, hsh))
    (hmm : bcryptCompare hsh b2.password = false) :
    (loginHandler r1 s).1.status = 401
    ∧ (loginHandler r2 s).1.status = 401
    ∧ (loginHandler r1 s).1.body = (loginHandler r2 s).1.body
    ∧ slowHashCount (loginHandler r1 s).2.2 = 0
    ∧ slowHashCount (loginHandler r2 s).2.2 = 1 := by
  have hq1 : dbQueryHash s.db b1.email = .error () := by
    simp [dbQueryHash, hup, habsent]
  have hq2 : dbQueryHash s.db b2.email = .ok hsh := by
    simp [dbQueryHash, hup, hfound]
  refine ⟨?_, ?_, ?_, ?_, ?_⟩ <;>
    simp [loginHandler, h1, h2, hq1, hq2, hmm, mkResp, slowHashCount]

theorem login_401_uniform_shape_witness :
    stC7.db.users.find? (fun u => u.1 == "b@x.com") = none
    ∧ slowHashCount (loginHandler reqC7u stC7).2.2 = 0
    ∧ slowHashCount (loginHandler reqC7w stC7).2.2 = 1 := by
  have h := login_401_uniform_shape stC7 reqC7u reqC7w
    { email := "b@x.com", password := "pw1" } { email := "a@x.com", password := "wrong" }
    (bcryptGenerate "pw1") rfl rfl (by decide) rfl (by decide) (by decide)
  exact ⟨by decide, h.2.2.2.1, h.2.2.2.2⟩

/-- C8: a correct-credentials login mints the next fresh token, stores
`session:<token> → email` with a 24-hour (86400 s) expiry, sets the
`session_id` cookie with HttpOnly, Path `/` and SameSite Lax, and the
round trip holds: presenting that cookie on /me before the expiry
resolves through the AuthGate to exactly the submitted email, and at or
after the expiry yields 401 "Session expired or invalid". -/
theorem login_session_roundtrip (s : St) (r r2 : Request) (email pw : String) (t1 t2 : Nat)
    (hdb : s.db.up = true) (hr : s.redis.up = true)
    (hbody : r.body = some { email := email, password := pw })
    (hfound : s.db.users.find? (fun u => u.1 == email) = some (email, bcryptGenerate pw))
    (hc2 : r2.cookie = some (uuidNew s.rng))
    (hcnt : lookupCounter s.redis.counters (rateKey r2) = none)
    (ht1 : t1 < s.now + 86400) (ht2 : s.now + 86400 ≤ t2) :
    (loginHandler r s).1.status = 200
    ∧ (loginHandler r s).1.cookie
        = some { name := "session_id", value := uuidNew s.rng, path := "/",
                 httpOnly := true, secure := false, sameSiteLax := true }
    ∧ lookupSession (loginHandler r s).2.1.redis.sessions ("session:" ++ uuidNew s.rng)
        = some (email, s.now + 86400)
    ∧ (mePipeline r2 { (loginHandler r s).2.1 with now := t1 }).1.status = 200
    ∧ (mePipeline r2 { (loginHandler r s).2.1 with now := t1 }).1.body = "Hello " ++ email
    ∧ (mePipeline r2 { (loginHandler r s).2.1 with now := t2 }).1.status = 401
    ∧ (mePipeline r2 { (loginHandler r s).2.1 with now := t2 }).1.body
        = "Session expired or invalid" := by
  have hq : dbQueryHash s.db email = .ok (bcryptGenerate pw) := by
    simp [dbQueryHash, hdb, hfound]
  have hNo2 : ¬(t2 < s.now + 86400) := Nat.not_lt.mpr ht2
  simp only [rateKey] at hcnt
  refine ⟨?_, ?_, ?_, ?_, ?_, ?_, ?_⟩ <;>
    simp [loginHandler, hbody, hq, bcryptCompare, redisSet, hr, mePipeline,
      authMiddleware, rateLimitMiddleware, loggingMiddleware, meHandler, redisGet,
      redisIncr, redisExpire, lookupSession, lookupCounter, setCounter, rateKey,
      liveAt, hc2, hcnt, ht1, hNo2, mkResp]

theorem login_session_roundtrip_witness :
    (loginHandler reqC8 stC8).1.status = 200
    ∧ (mePipeline reqC8me { (loginHandler reqC8 stC8).2.1 with now := 100 }).1.body
        = "Hello a@x.com"
    ∧ (mePipeline reqC8me { (loginHandler reqC8 stC8).2.1 with now := 86400 }).1.status
        = 401 := by
  have h := login_session_roundtrip stC8 reqC8 reqC8me "a@x.com" "pw1" 100 86400
    rfl rfl rfl (by decide) rfl (by decide) (by decide) (by decide)
  exact ⟨h.1, h.2.2.2.2.1, h.2.2.2.2.2.1⟩

/-- C9: through the /me pipeline the unchecked type assertion of
`meHandler` can never fire: `authMiddleware` installs a string
`userEmail` context value before forwarding, so no trace of the
pipeline ever records the panic, for any request and any world. -/
theorem me_context_value_safe (r : Request) (s : St) :
    hasPanic (mePipeline r s).2.2 = false := by
  match hc : r.cookie with
  | none => simp [mePipeline, authMiddleware, hc, hasPanic]
  | some tok =>
    match hg : redisGet s.now s.redis ("session:" ++ tok) with
    | .error _ => simp [mePipeline, authMiddleware, hc, hg, hasPanic]
    | .ok email =>
      match hi : redisIncr s.now s.redis ("rate_limit:" ++ r.remoteAddr) with
      | .error _ =>
          simp [mePipeline, authMiddleware, rateLimitMiddleware, loggingMiddleware,
            meHandler, rateKey, hc, hg, hi, hasPanic]
      | .ok (count, rds) =>
          by_cases h10 : count > 10 <;>
            simp [mePipeline, authMiddleware, rateLimitMiddleware, loggingMiddleware,
              meHandler, rateKey, mkResp, hc, hg, hi, h10, hasPanic]

/-- C10: every login that does not succeed (status ≠ 200) sets no
session cookie and leaves the session store exactly as it was (a
failing write leaves the store unchanged) — error paths are atomic
with respect to session state. -/
theorem login_error_paths_atomic (r : Request) (s : St)
    (hne : (loginHandler r s).1.status ≠ 200) :
    (loginHandler r s).1.cookie = none
    ∧ (loginHandler r s).2.1.redis.sessions = s.redis.sessions := by
  match hb : r.body with
  | none => constructor <;> simp [loginHandler, hb, mkResp]
  | some req =>
    match hq : dbQueryHash s.db req.email with
    | .error _ => constructor <;> simp [loginHandler, hb, hq, mkResp]
    | .ok storedHash =>
      by_cases hcmp : bcryptCompare storedHash req.password
      · match hw : redisSet s.now s.redis ("session:" ++ uuidNew s.rng) req.email 86400 with
        | .error _ => constructor <;> simp [loginHandler, hb, hq, hcmp, hw, mkResp]
        | .ok rds' =>
            exfalso
            apply hne
            simp [loginHandler, hb, hq, hcmp, hw]
      · constructor <;> simp [loginHandler, hb, hq, hcmp, mkResp]

theorem login_error_paths_atomic_witness :
    (loginHandler reqC10 st0).1.status = 400
    ∧ (loginHandler reqC10 st0).1.cookie = none
    ∧ (loginHandler reqC10 st0).2.1.redis.sessions = st0.redis.sessions := by
  have h := login_error_paths_atomic reqC10 st0 (by decide)
  exact ⟨by decide, h.1, h.2⟩

end AuthService
